import Mathlib

/-!
Shallow embedding of the playwright-mcp-smart response pipeline and
conversation bridge, together with theorems settling the specification
claims.  JavaScript strings are modelled by Lean `String`, JavaScript
numbers occurring as counts/lengths by `Nat`, JavaScript objects by
association lists of `JsVal`, and `undefined` by `Option`/`JsVal.undefined`.
-/

namespace PWMCP

/-- Model of a JavaScript value as it occurs in tool arguments and
tool-call inputs: strings, (natural) numbers, booleans, `undefined`,
and plain objects. -/
inductive JsVal where
  | str (s : String)
  | num (n : Nat)
  | bool (b : Bool)
  | undefined
  | obj (fields : List (String × JsVal))

/-- A JavaScript object: an association list of keys and values,
in property-insertion order. -/
abbrev JsObj := List (String × JsVal)

/-- Property read `o[k]`: the first binding of `k`, or `undefined`. -/
def jsGet (o : JsObj) (k : String) : JsVal :=
  match o.find? (fun p => p.1 == k) with
  | some p => p.2
  | none => .undefined

/-- Embeds `delete o[k]`: removes the binding of `k`. -/
def jsDelete (o : JsObj) (k : String) : JsObj :=
  o.filter (fun p => !(p.1 == k))

/-- Whether the object has a binding for `k`. -/
def hasKey (o : JsObj) (k : String) : Bool :=
  o.any (fun p => p.1 == k)

/-- Property write (as performed by an object-literal spread such as
`\x7b...o, k: v\x7d`): overwrite in place if `k` is present, otherwise
append the new binding at the end, matching JS property order. -/
def jsSet (o : JsObj) (k : String) (v : JsVal) : JsObj :=
  if hasKey o k then o.map (fun p => if p.1 == k then (k, v) else p)
  else o ++ [(k, v)]

/-- Object spread `\x7b...a, ...b\x7d`: `b`'s properties written over `a`. -/
def jsMerge (a b : JsObj) : JsObj :=
  b.foldl (fun acc p => jsSet acc p.1 p.2) a

/-- JavaScript truthiness of a value. -/
def truthy : JsVal → Bool
  | .str s => !(s == "")
  | .num n => !(n == 0)
  | .bool b => b
  | .undefined => false
  | .obj _ => true

/-- Embeds `v || d` coerced to a number, as used for numeric defaults such as
`params.limit || 100` (non-numeric truthy values do not occur at the
call sites embedded here). -/
def jsNumOr (v : JsVal) (d : Nat) : Nat :=
  if truthy v then
    match v with
    | .num n => n
    | _ => d
  else d

/-- Embeds `params.limit || 100`-style defaulting on an optional numeric
parameter; `0` is falsy in JS, hence replaced by the default. -/
def jsOrNat (o : Option Nat) (d : Nat) : Nat :=
  match o with
  | some n => if n == 0 then d else n
  | none => d

/-- JS truthiness of an optional numeric parameter (`!!params.limit`). -/
def jsTruthyOpt : Option Nat → Bool
  | some n => !(n == 0)
  | none => false

/-- Embeds `Array.prototype.join(sep)`. -/
def jsJoin (sep : String) : List String → String
  | [] => ""
  | [x] => x
  | x :: y :: xs => x ++ sep ++ jsJoin sep (y :: xs)

/-- Embeds `String.prototype.substring(b, e)` (for `b ≤ e`; both clamped to
the string length), modelled on the character list. -/
def jsStrSub (s : String) (b e : Nat) : String :=
  String.mk ((s.data.take e).drop b)

/-- Embeds `Array.prototype.slice(b, e)` for natural indices. -/
def jsSlice (xs : List α) (b e : Nat) : List α :=
  (xs.take e).drop b

/-- Helper for `Number.prototype.toLocaleString`: inserts a comma after
every three characters of the reversed digit string. -/
def commaRev : List Char → List Char
  | a :: b :: c :: d :: rest => a :: b :: c :: ',' :: commaRev (d :: rest)
  | cs => cs

/-- Embeds `n.toLocaleString()`: decimal digits grouped by thousands. -/
def toLocaleString (n : Nat) : String :=
  String.mk ((commaRev (Nat.repr n).data.reverse).reverse)

/-! ## Token budget estimator (`Response.checkTokenLimit`) -/

/-- Embeds `Response.TOKEN_LIMIT`: set lower than the downstream 25k limit. -/
def TOKEN_LIMIT : Nat := 22000

/-- Result shape of `checkTokenLimit`. -/
structure TokenCheck where
  needsPagination : Bool
  totalPages : Option Nat
  message : Option String
deriving Repr

/-- Embeds `Response.checkTokenLimit`: estimates `Math.ceil(length / 4)`
tokens and flags pagination when the estimate exceeds `TOKEN_LIMIT`,
with `totalPages = Math.ceil(estimatedTokens / TOKEN_LIMIT)`. -/
def checkTokenLimit (content : String) : TokenCheck :=
  let estimatedTokens := (content.length + 3) / 4
  if estimatedTokens > TOKEN_LIMIT then
    let totalPages := (estimatedTokens + (TOKEN_LIMIT - 1)) / TOKEN_LIMIT
    { needsPagination := true
      totalPages := some totalPages
      message := some ("⚠️ 返回内容过大 (约" ++ toLocaleString estimatedTokens ++
        " tokens)，超出限制 (" ++ toLocaleString TOKEN_LIMIT ++
        " tokens)。需要分" ++ Nat.repr totalPages ++ "页获取。") }
  else
    { needsPagination := false, totalPages := none, message := none }

/-! ## Response builder state (`Response`) -/

/-- An image attachment as accumulated by `addImage`; the binary
`Buffer` payload is modelled by its base64 rendering. -/
structure ImageAttachment where
  contentType : String
  data : String
deriving Repr

/-- One open browser tab, as consumed by `renderTabsMarkdown`. -/
structure TabInfo where
  isCurrent : Bool
  lastTitle : String
  url : String
deriving Repr

/-- A download entry of a tab snapshot, as consumed by `renderTabSnapshot`. -/
structure DownloadEntry where
  finished : Bool
  suggestedFilename : String
  outputFile : String
deriving Repr

/-- The external `TabSnapshot` value produced by the browser engine;
console messages and modal states are modelled by their rendered
string forms. -/
structure TabSnapshot where
  url : String
  title : String
  ariaSnapshot : String
  consoleMessages : List String
  downloads : List DownloadEntry
  modalStates : List String
deriving Repr

/-- The slice of `Context` that `Response` consumes: the open tabs and
the `imageResponses` configuration switch. -/
structure Context where
  tabs : List TabInfo
  imageResponses : String
deriving Repr

/-- The mutable state of one `Response` instance. -/
structure ResponseState where
  result : List String
  code : List String
  images : List ImageAttachment
  context : Context
  includeSnapshot : Bool
  includeTabs : Bool
  tabSnapshot : Option TabSnapshot
  toolName : String
  toolArgs : JsObj
  isError : Option Bool

/-- A fresh `Response` for one tool invocation (the constructor). -/
def mkResponse (context : Context) (toolName : String) (toolArgs : JsObj) : ResponseState :=
  { result := [], code := [], images := [], context := context
    includeSnapshot := false, includeTabs := false, tabSnapshot := none
    toolName := toolName, toolArgs := toolArgs, isError := none }

/-- Embeds `Response.addResult`. -/
def addResult (st : ResponseState) (r : String) : ResponseState :=
  { st with result := st.result ++ [r] }

/-- Embeds `Response.addError`: records the text and sets the sticky error flag. -/
def addError (st : ResponseState) (error : String) : ResponseState :=
  { st with result := st.result ++ [error], isError := some true }

/-- Embeds `Response.addCode`. -/
def addCode (st : ResponseState) (c : String) : ResponseState :=
  { st with code := st.code ++ [c] }

/-- Embeds `Response.addImage`. -/
def addImage (st : ResponseState) (image : ImageAttachment) : ResponseState :=
  { st with images := st.images ++ [image] }

/-! ## JSON rendering (`JSON.stringify`, compact form) -/

mutual

/-- Compact `JSON.stringify` of a value.  String escaping of special
characters is not modelled; the inputs used in theorems contain none. -/
def stringifyVal : JsVal → String
  | .str s => "\"" ++ s ++ "\""
  | .num n => Nat.repr n
  | .bool true => "true"
  | .bool false => "false"
  | .undefined => "undefined"
  | .obj fields => "\x7b" ++ jsJoin "," (stringifyFields fields) ++ "\x7d"

/-- Renders the properties of an object; `undefined`-valued properties
are omitted, as `JSON.stringify` does. -/
def stringifyFields : List (String × JsVal) → List String
  | [] => []
  | (_, .undefined) :: rest => stringifyFields rest
  | (k, v) :: rest => ("\"" ++ k ++ "\":" ++ stringifyVal v) :: stringifyFields rest

end

/-- Compact `JSON.stringify` of an object. -/
def stringifyObj (o : JsObj) : String :=
  "\x7b" ++ jsJoin "," (stringifyFields o) ++ "\x7d"

/-! ## Pagination advice (`Response.addPaginationWarning`) -/

/-- The per-page suggested parameter set
`\x7b ...baseParams, limit: baseParams.limit || 100, offset \x7d`. -/
def pageParamsAt (baseParams : JsObj) (page : Nat) : JsObj :=
  let offset := (page - 1) * jsNumOr (jsGet baseParams "limit") 100
  jsSet (jsSet baseParams "limit" (.num (jsNumOr (jsGet baseParams "limit") 100)))
    "offset" (.num offset)

/-- One page line of the pagination-advice message. -/
def pageLine (totalPages page : Nat) (pageParams : JsObj) : String :=
  "页面" ++ Nat.repr page ++ "/" ++ Nat.repr totalPages ++ ": 使用参数 " ++
    stringifyObj pageParams ++ "\n"

/-- The base parameter set of `addPaginationWarning`: the tool's
arguments merged with `additionalParams`, with `limit` and `offset`
deleted. -/
def warningBaseParams (toolArgs additionalParams : JsObj) : JsObj :=
  jsDelete (jsDelete (jsMerge toolArgs additionalParams) "limit") "offset"

/-- The full pagination-advice message built by `addPaginationWarning`. -/
def paginationMessage (toolArgs additionalParams : JsObj) (totalPages : Nat) : String :=
  let baseParams := warningBaseParams toolArgs additionalParams
  let msg0 := "⚠️ 返回内容过大，建议分" ++ Nat.repr totalPages ++ "页获取：\n\n"
  let msg1 := (List.range' 1 (min totalPages 5)).foldl
    (fun msg page => msg ++ pageLine totalPages page (pageParamsAt baseParams page)) msg0
  let msg2 := if totalPages > 5 then
      msg1 ++ "... (还有" ++ Nat.repr (totalPages - 5) ++ "页)\n"
    else msg1
  msg2 ++ "\n或考虑使用更小的limit值来减少每页数据量。"

/-- Embeds `Response.addPaginationWarning` (the `toolName` parameter is
accepted but unused, as in the source). -/
def addPaginationWarning (st : ResponseState) (totalPages : Nat)
    (_toolName : String) (additionalParams : JsObj) : ResponseState :=
  addResult st (paginationMessage st.toolArgs additionalParams totalPages)

/-! ## List-style tool handlers (`browser_console_messages`,
`browser_network_requests`) -/

/-- The optional `limit`/`offset` parameters of the list tools. -/
structure ListParams where
  limit : Option Nat
  offset : Option Nat
deriving Repr, DecidableEq

/-- Concatenation of a list of strings (surface form used to state the
decomposition of accumulated messages). -/
def strConcat : List String → String
  | [] => ""
  | x :: xs => x ++ strConcat xs

/-- The next-page hint emitted by the console tool. -/
def consoleNextPageHint (limit nextOffset : Nat) : String :=
  "\n📄 More messages available. Next page: \x7b\"limit\": " ++ Nat.repr limit ++
    ", \"offset\": " ++ Nat.repr nextOffset ++ "\x7d"

/-- The slicing tail of the console handler (the code after the
budget-check block). -/
def consolePaginate (messages : List String) (params : ListParams)
    (response : ResponseState) : ResponseState :=
  let limit := jsOrNat params.limit 100
  let offset := jsOrNat params.offset 0
  let paginatedMessages := jsSlice messages offset (offset + limit)
  let hasMore := offset + limit < messages.length
  if paginatedMessages.isEmpty then
    addResult response "No console messages found in the specified range."
  else
    let r1 :=
      if jsTruthyOpt params.limit || jsTruthyOpt params.offset then
        addResult response ("Console messages " ++ Nat.repr (offset + 1) ++ "-" ++
          Nat.repr (offset + paginatedMessages.length) ++ " of " ++
          Nat.repr messages.length ++ ":")
      else response
    let r2 := paginatedMessages.foldl addResult r1
    if hasMore then addResult r2 (consoleNextPageHint limit (offset + limit))
    else r2

/-- Embeds `console.handle`: `messages` is the tab's console message log in
rendered (`toString`) form. -/
def consoleHandle (messages : List String) (params : ListParams)
    (response : ResponseState) : ResponseState :=
  if !jsTruthyOpt params.limit && !jsTruthyOpt params.offset then
    let allContent := jsJoin "\n" messages
    let tokenCheck := checkTokenLimit allContent
    if tokenCheck.needsPagination then
      addPaginationWarning response (tokenCheck.totalPages.getD 0)
        "browser_console_messages" []
    else
      consolePaginate messages params response
  else
    consolePaginate messages params response

/-- A network request/response pair as consumed by `renderRequest`. -/
structure RequestEntry where
  method : String
  url : String
  response : Option (Nat × String)
deriving Repr, DecidableEq

/-- Embeds `String.prototype.toUpperCase`, modelled on the character list. -/
def jsToUpper (s : String) : String :=
  String.mk (s.data.map Char.toUpper)

/-- Embeds `renderRequest`. -/
def renderRequest (e : RequestEntry) : String :=
  jsJoin " " (["[" ++ jsToUpper e.method ++ "] " ++ e.url] ++
    match e.response with
    | some (status, statusText) => ["=> [" ++ Nat.repr status ++ "] " ++ statusText]
    | none => [])

/-- The next-page hint emitted by the network-requests tool (the
leading characters reproduce the source literal byte-for-byte). -/
def requestsNextPageHint (limit nextOffset : Nat) : String :=
  "\nðŸ“„ More results available. Next page: \x7b\"limit\": " ++ Nat.repr limit ++
    ", \"offset\": " ++ Nat.repr nextOffset ++ "\x7d"

/-- The slicing tail of the network-requests handler. -/
def requestsPaginate (requestEntries : List RequestEntry) (params : ListParams)
    (response : ResponseState) : ResponseState :=
  let limit := jsOrNat params.limit 100
  let offset := jsOrNat params.offset 0
  let paginatedEntries := jsSlice requestEntries offset (offset + limit)
  let hasMore := offset + limit < requestEntries.length
  if paginatedEntries.isEmpty then
    addResult response "No network requests found in the specified range."
  else
    let r1 :=
      if jsTruthyOpt params.limit || jsTruthyOpt params.offset then
        addResult response ("Network requests " ++ Nat.repr (offset + 1) ++ "-" ++
          Nat.repr (offset + paginatedEntries.length) ++ " of " ++
          Nat.repr requestEntries.length ++ ":")
      else response
    let r2 := paginatedEntries.foldl (fun r e => addResult r (renderRequest e)) r1
    if hasMore then addResult r2 (requestsNextPageHint limit (offset + limit))
    else r2

/-- Embeds `requests.handle`. -/
def requestsHandle (requestEntries : List RequestEntry) (params : ListParams)
    (response : ResponseState) : ResponseState :=
  if !jsTruthyOpt params.limit && !jsTruthyOpt params.offset then
    let allContent := jsJoin "\n" (requestEntries.map renderRequest)
    let tokenCheck := checkTokenLimit allContent
    if tokenCheck.needsPagination then
      addPaginationWarning response (tokenCheck.totalPages.getD 0)
        "browser_network_requests" []
    else
      requestsPaginate requestEntries params response
  else
    requestsPaginate requestEntries params response

/-- A concrete large string used to exercise the over-budget paths. -/
def bigStr : String := String.mk (List.replicate 88004 'a')

/-- Claim-side rendering of the console tool's explicit-pagination
behavior, following the spec's words: the slice `[offset, offset+limit)`,
a range/total report, a next-page hint exactly when more items remain,
and a dedicated empty-range message. -/
def consoleSliceSpec (msgs : List String) (limit offset : Nat) : List String :=
  let slice := (msgs.drop offset).take limit
  if slice = [] then ["No console messages found in the specified range."]
  else
    ("Console messages " ++ Nat.repr (offset + 1) ++ "-" ++
      Nat.repr (offset + slice.length) ++ " of " ++ Nat.repr msgs.length ++ ":") ::
    slice ++
    (if offset + limit < msgs.length then
      [consoleNextPageHint limit (offset + limit)]
    else [])

/-- Claim-side rendering of the network-requests tool's
explicit-pagination behavior, following the spec's words. -/
def requestsSliceSpec (entries : List RequestEntry) (limit offset : Nat) : List String :=
  let slice := (entries.drop offset).take limit
  if slice = [] then ["No network requests found in the specified range."]
  else
    ("Network requests " ++ Nat.repr (offset + 1) ++ "-" ++
      Nat.repr (offset + slice.length) ++ " of " ++ Nat.repr entries.length ++ ":") ::
    slice.map renderRequest ++
    (if offset + limit < entries.length then
      [requestsNextPageHint limit (offset + limit)]
    else [])

/-- Context/response fixtures for concrete witnesses. -/
def ctxW : Context := ⟨[], "include"⟩

def stW : ResponseState := mkResponse ctxW "browser_console_messages" []

def reqW : RequestEntry := ⟨"get", bigStr, none⟩

def msgs250 : List String := (List.range 250).map (fun i => "m" ++ Nat.repr i)

/-! ## Snapshot rendering and serialization (`Response.serialize`,
`Response.finish`) -/

/-- Embeds `trim(text, maxLength)`. -/
def trim (text : String) (maxLength : Nat) : String :=
  if text.length ≤ maxLength then text
  else jsStrSub text 0 maxLength ++ "..."

/-- Embeds `renderTabSnapshot`. -/
def renderTabSnapshot (tabSnapshot : TabSnapshot) : String :=
  let lines : List String :=
    (if tabSnapshot.consoleMessages.isEmpty then []
     else ["### New console messages"] ++
       tabSnapshot.consoleMessages.map (fun message => "- " ++ trim message 100) ++ [""]) ++
    (if tabSnapshot.downloads.isEmpty then []
     else ["### Downloads"] ++
       tabSnapshot.downloads.map (fun entry =>
         if entry.finished then
           "- Downloaded file " ++ entry.suggestedFilename ++ " to " ++ entry.outputFile
         else
           "- Downloading file " ++ entry.suggestedFilename ++ " ...") ++ [""]) ++
    ["### Page state",
     "- Page URL: " ++ tabSnapshot.url,
     "- Page Title: " ++ tabSnapshot.title,
     "- Page Snapshot:",
     "```yaml",
     tabSnapshot.ariaSnapshot,
     "```"]
  jsJoin "\n" lines

/-- Embeds `renderTabsMarkdown`. -/
def renderTabsMarkdown (tabs : List TabInfo) (force : Bool) : List String :=
  if tabs.length == 1 && !force then []
  else if tabs.isEmpty then
    ["### Open tabs",
     "No open tabs. Use the \"browser_navigate\" tool to navigate to a page first.",
     ""]
  else
    ["### Open tabs"] ++
    (tabs.enum.map (fun p =>
      "- " ++ Nat.repr p.1 ++ ":" ++ (if p.2.isCurrent then " (current)" else "") ++
      " [" ++ p.2.lastTitle ++ "] (" ++ p.2.url ++ ")")) ++ [""]

/-- Modelled from the spec: `renderModalStates` lives in `tab.ts`,
which is not among the sources; the spec only says that serialization
renders a modal-dialog state block (taking priority over the page
state) when modal dialogs are open, so it is modelled as one rendered
line per open modal state. -/
def renderModalStates (_context : Context) (modalStates : List String) : List String :=
  modalStates

/-- A serialized content entry: text, or a base64 image. -/
inductive ContentItem where
  | text (text : String)
  | image (data : String) (mimeType : String)
deriving Repr

/-- The return shape of `Response.serialize`. -/
structure SerializedResponse where
  content : List ContentItem
  isError : Option Bool

/-- The section list assembled by `serialize` before the final budget
check. -/
def responseSections (st : ResponseState) : List String :=
  (if st.result.isEmpty then []
   else ["### Result", jsJoin "\n" st.result, ""]) ++
  (if st.code.isEmpty then []
   else ["### Ran Playwright code\n```js\n" ++ jsJoin "\n" st.code ++ "\n```", ""]) ++
  (if st.includeSnapshot || st.includeTabs then
    renderTabsMarkdown st.context.tabs st.includeTabs
   else []) ++
  (match st.tabSnapshot with
   | some snap =>
     if !snap.modalStates.isEmpty then
       renderModalStates st.context snap.modalStates ++ [""]
     else
       [renderTabSnapshot snap, ""]
   | none => [])

/-- The full assembled response text. -/
def assembledResponse (st : ResponseState) : String :=
  jsJoin "\n" (responseSections st)

/-- The emergency-truncation character budget:
`TOKEN_LIMIT * 4 * 0.9` (exact in JS float arithmetic). -/
def emergencyMaxLength : Nat := TOKEN_LIMIT * 4 * 9 / 10

/-- The fixed warning appended by emergency truncation. -/
def responseTruncationWarning : String :=
  "\n\n⚠️ RESPONSE TRUNCATED: Output exceeded " ++ toLocaleString TOKEN_LIMIT ++
  " tokens and was automatically truncated. Use browser_snapshot with filtering parameters for complete results."

/-- Embeds `Response.serialize`. -/
def serialize (st : ResponseState) : SerializedResponse :=
  let fullResponse := assembledResponse st
  let tokenCheck := checkTokenLimit fullResponse
  if tokenCheck.needsPagination then
    let truncated := jsStrSub fullResponse 0 emergencyMaxLength
    { content := [ContentItem.text (truncated ++ responseTruncationWarning)]
      isError := st.isError }
  else
    { content := [ContentItem.text fullResponse] ++
        (if !(st.context.imageResponses == "omit") then
          st.images.map (fun image => ContentItem.image image.data image.contentType)
        else [])
      isError := st.isError }

/-- The truncation budget for oversized snapshots:
`Math.floor(TOKEN_LIMIT * 4 * 0.8)` (exact in JS float arithmetic). -/
def snapshotTruncationPoint : Nat := TOKEN_LIMIT * 4 * 8 / 10

/-- The warning block appended to a truncated snapshot, naming the
element count cap, element-type filter, and long-text skip parameters. -/
def snapshotTruncationWarning (estimatedTokens : Nat) : String :=
  "\n\n⚠️ SNAPSHOT TRUNCATED: Page snapshot was too large (" ++
  toLocaleString estimatedTokens ++ " tokens, limit: " ++ toLocaleString TOKEN_LIMIT ++
  ").\n\nTo get a complete snapshot, use browser_snapshot with filtering parameters:\n" ++
  "- \x7b\"maxElements\": 200\x7d - Limit number of elements\n" ++
  "- \x7b\"elementTypes\": [\"button\", \"textbox\", \"link\", \"heading\"]\x7d - Filter by element types  \n" ++
  "- \x7b\"skipLargeTexts\": true\x7d - Skip elements with large text content\n" ++
  "- Combine parameters for best results\n\n--- TRUNCATED SNAPSHOT ABOVE ---"

/-- Embeds `Response._createTruncatedSnapshot`. -/
def createTruncatedSnapshot (fullSnapshot : TabSnapshot) : TabSnapshot :=
  let estimatedTokens := (fullSnapshot.ariaSnapshot.length + 3) / 4
  let truncatedAriaSnapshot := jsStrSub fullSnapshot.ariaSnapshot 0 snapshotTruncationPoint
  { fullSnapshot with
    ariaSnapshot := truncatedAriaSnapshot ++ snapshotTruncationWarning estimatedTokens }

/-- Embeds `Response.finish`: the snapshot-capturing step.  The externally
captured snapshot (`captureSnapshot`) and the presence of a current tab
are passed in as inputs. -/
def finish (st : ResponseState) (hasCurrentTab : Bool)
    (tempSnapshot : Option TabSnapshot) : ResponseState :=
  if st.includeSnapshot && hasCurrentTab then
    match tempSnapshot with
    | some t =>
      if !(t.ariaSnapshot == "") then
        if (checkTokenLimit t.ariaSnapshot).needsPagination then
          { st with tabSnapshot := some (createTruncatedSnapshot t) }
        else
          { st with tabSnapshot := some t }
      else
        { st with tabSnapshot := tempSnapshot }
    | none => { st with tabSnapshot := none }
  else st

/-- Whether a content entry is an image. -/
def isImageItem : ContentItem → Bool
  | .image _ _ => true
  | .text _ => false

/-- Concrete over-budget response states and snapshots. -/
def stBig : ResponseState :=
  { mkResponse ctxW "browser_evaluate" [] with result := [bigStr] }

def stBigImg : ResponseState :=
  { stBig with images := [⟨"image/png", "QUFB"⟩] }

def stImgs : ResponseState :=
  { mkResponse ctxW "browser_take_screenshot" [] with
    result := ["ok"]
    images := [⟨"image/png", "AAAA"⟩, ⟨"image/jpeg", "BBBB"⟩] }

def snapBig : TabSnapshot :=
  ⟨"https://example.test/", "Example", bigStr, [], [], []⟩

def stSnap : ResponseState :=
  { mkResponse ctxW "browser_navigate" [] with includeSnapshot := true }

/-! ## The two near-duplicate `browser_evaluate` result handlers -/

/-- The `maxLength`/`returnSummary` parameters of `browser_evaluate`. -/
structure EvalParams where
  maxLength : Option Nat
  returnSummary : Bool
deriving Repr, DecidableEq

/-- The over-budget summary JSON of the budget-first variant
(`JSON.stringify(summary, null, 2)`). -/
def evalSummaryBudget (resultType jsonResult : String) : String :=
  "\x7b\n  \"type\": \"" ++ resultType ++ "\",\n  \"length\": " ++
  Nat.repr jsonResult.length ++ ",\n  \"estimatedTokens\": " ++
  Nat.repr ((jsonResult.length + 2) / 3) ++ ",\n  \"preview\": \"" ++
  jsStrSub jsonResult 0 1000 ++
  "\",\n  \"truncated\": true,\n  \"suggestion\": \"Use maxLength parameter or modify JavaScript to return smaller dataset\"\n\x7d"

/-- The over-`maxLength` summary JSON (identical in both variants). -/
def evalSummaryMaxLength (resultType jsonResult : String) (maxLength : Nat) : String :=
  "\x7b\n  \"type\": \"" ++ resultType ++ "\",\n  \"length\": " ++
  Nat.repr jsonResult.length ++ ",\n  \"preview\": \"" ++
  jsStrSub jsonResult 0 maxLength ++
  "\",\n  \"truncated\": true,\n  \"suggestion\": \"Use maxLength parameter or set returnSummary: false for full result\"\n\x7d"

/-- The over-budget plain message of the budget-first variant. -/
def evalTooLargeMsg (jsonResult : String) (maxLength : Nat) : String :=
  "⚠️ JavaScript execution result too large (~" ++
  toLocaleString ((jsonResult.length + 2) / 3) ++ " tokens), exceeds limit (" ++
  Nat.repr 20000 ++ " tokens).\n\nRecommended solutions:\n\n" ++
  "1. Limit length: \x7b\"maxLength\": " ++ Nat.repr (maxLength / 2) ++ "\x7d\n" ++
  "2. Return summary: \x7b\"returnSummary\": true\x7d\n" ++
  "3. Modify JavaScript code to return smaller dataset\n\n" ++
  "Result preview (first 1000 characters):\n" ++ jsStrSub jsonResult 0 1000 ++ "..."

/-- The over-`maxLength` truncation message of the budget-first variant. -/
def evalTruncatedMsg (jsonResult : String) (maxLength : Nat) : String :=
  "⚠️ Result truncated to " ++ Nat.repr maxLength ++ " characters (original: " ++
  Nat.repr jsonResult.length ++ " characters).\n\n" ++
  jsStrSub jsonResult 0 maxLength ++ "..."

/-- The over-budget message of the maxLength-first variant. -/
def evalTooLargeMsgCN (jsonResult : String) (maxLength : Nat) : String :=
  "⚠️ JavaScript执行结果过大 (约" ++ toLocaleString ((jsonResult.length + 3) / 4) ++
  " tokens)，超出限制 (24,000 tokens)。\n\n建议使用以下参数：\n\n" ++
  "1. 限制长度: \x7b\"maxLength\": " ++ Nat.repr maxLength ++ "\x7d\n" ++
  "2. 返回摘要: \x7b\"returnSummary\": true\x7d\n" ++
  "3. 修改JavaScript代码返回更小的数据集\n\n" ++
  "结果预览 (前1000字符)：\n" ++ jsStrSub jsonResult 0 1000 ++ "..."

/-- The budget-first `browser_evaluate` result handler: the result
lines added for a given JSON-rendered evaluation result
(`resultType` models `typeof result`). -/
def evaluateBudgetFirst (params : EvalParams) (resultType jsonResult : String) :
    List String :=
  let maxLength := jsOrNat params.maxLength 10000
  if (checkTokenLimit jsonResult).needsPagination then
    if params.returnSummary then [evalSummaryBudget resultType jsonResult]
    else [evalTooLargeMsg jsonResult maxLength]
  else if jsonResult.length > maxLength then
    if params.returnSummary then [evalSummaryMaxLength resultType jsonResult maxLength]
    else [evalTruncatedMsg jsonResult maxLength]
  else [jsonResult]

/-- The maxLength-first `browser_evaluate` result handler: when the
result is over `maxLength`, not summarized, and under the token budget,
control falls through to the final `addResult` of the full result. -/
def evaluateMaxLengthFirst (params : EvalParams) (resultType jsonResult : String) :
    List String :=
  let maxLength := jsOrNat params.maxLength 10000
  if jsonResult.length > maxLength then
    if params.returnSummary then [evalSummaryMaxLength resultType jsonResult maxLength]
    else if (checkTokenLimit jsonResult).needsPagination then
      [evalTooLargeMsgCN jsonResult maxLength]
    else [jsonResult]
  else [jsonResult]

/-! ## Conversation model and the Claude delegate bridge -/

/-- A generic tool call proposed by the model. -/
structure LLMToolCall where
  name : String
  arguments : JsObj
  id : String

/-- A generic tool descriptor in the conversation. -/
structure LLMTool where
  name : String
  description : String
  inputSchema : JsVal

/-- An MCP tool as passed to `createConversation` (optional description). -/
structure MCPTool where
  name : String
  description : Option String
  inputSchema : JsVal

/-- A message of the provider-agnostic conversation log. -/
inductive GMessage where
  | user (content : String)
  | assistant (content : String) (toolCalls : Option (List LLMToolCall))
  | tool (toolCallId : String) (content : String) (isError : Option Bool)

/-- The provider-agnostic conversation. -/
structure LLMConversation where
  messages : List GMessage
  tools : List LLMTool

/-- Tool conversion in `createConversation` (`tool.description || ''`). -/
def toLLMTool (tool : MCPTool) : LLMTool :=
  ⟨tool.name, tool.description.getD "", tool.inputSchema⟩

/-- The synthetic parameterless `done` tool. -/
def doneTool : LLMTool :=
  ⟨"done", "Call this tool when the task is complete.",
   JsVal.obj [("type", JsVal.str "object"), ("properties", JsVal.obj [])]⟩

/-- Embeds `ClaudeDelegate.createConversation`. -/
def createConversation (task : String) (tools : List MCPTool) (oneShot : Bool) :
    LLMConversation :=
  let llmTools := tools.map toLLMTool
  let llmTools2 := if !oneShot then llmTools ++ [doneTool] else llmTools
  ⟨[GMessage.user task], llmTools2⟩

/-- Embeds `ClaudeDelegate.checkDoneToolCall`: the extracted `result` property
for a `done` call (possibly `undefined`), `null` otherwise. -/
def checkDoneToolCall (toolCall : LLMToolCall) : Option JsVal :=
  if toolCall.name == "done" then some (jsGet toolCall.arguments "result")
  else none

/-- Embeds `ClaudeDelegate.addToolResults`. -/
def addToolResults (conversation : LLMConversation)
    (results : List (String × String × Option Bool)) : LLMConversation :=
  { conversation with
    messages := conversation.messages ++
      results.map (fun r => GMessage.tool r.1 r.2.1 r.2.2) }

/-- A `tool_result` block of the provider's batched user message. -/
structure ToolResultBlock where
  tool_use_id : String
  content : String
  is_error : Option Bool

/-- A content block of a provider-format assistant message. -/
inductive CBlock where
  | text (text : String)
  | toolUse (id name : String) (input : JsObj)

/-- A provider-format message as built by `makeApiCall`. -/
inductive CMessage where
  | userText (content : String)
  | assistantMsg (content : List CBlock)
  | userToolResults (content : List ToolResultBlock)

/-- Embeds `[...conversation.messages].reverse().find(m => m.role === 'assistant')`,
collapsed with the subsequent `&& lastAssistantMessage.toolCalls`
truthiness test: the tool calls of the last assistant message of the
whole log, when present. -/
def findLastAssistantToolCalls (messages : List GMessage) : Option (List LLMToolCall) :=
  match messages.reverse.find? (fun m =>
    match m with
    | .assistant _ _ => true
    | _ => false) with
  | some (.assistant _ toolCalls) => toolCalls
  | _ => none

/-- The message-translation loop of `makeApiCall`: walks the generic
log carrying the translated provider messages and the buffered
`pendingToolResults`, flushing exactly when the buffered result IDs
cover the tool-call IDs of the log's last assistant message. -/
def convertGo (lastToolCalls : Option (List LLMToolCall)) :
    List GMessage → List CMessage → List ToolResultBlock →
    List CMessage × List ToolResultBlock
  | [], acc, pending => (acc, pending)
  | .user c :: rest, acc, pending =>
      convertGo lastToolCalls rest (acc ++ [.userText c]) pending
  | .assistant c toolCalls :: rest, acc, pending =>
      let blocks := (if !(c == "") then [CBlock.text c] else []) ++
        (match toolCalls with
         | some tcs => tcs.map (fun tc => CBlock.toolUse tc.id tc.name tc.arguments)
         | none => [])
      let pending2 :=
        match toolCalls with
        | some (_ :: _) => []
        | _ => pending
      convertGo lastToolCalls rest (acc ++ [.assistantMsg blocks]) pending2
  | .tool toolCallId c isErr :: rest, acc, pending =>
      let pending2 := pending ++ [⟨toolCallId, c, isErr⟩]
      match lastToolCalls with
      | some allToolCalls =>
        if allToolCalls.all (fun tc =>
            (pending2.map (fun tr => tr.tool_use_id)).contains tc.id) then
          convertGo lastToolCalls rest (acc ++ [.userToolResults pending2]) []
        else
          convertGo lastToolCalls rest acc pending2
      | none => convertGo lastToolCalls rest acc pending2

/-- The full message translation of `makeApiCall` (up to the provider
call itself): any still-buffered results are flushed at the end. -/
def convertMessages (messages : List GMessage) : List CMessage :=
  let r := convertGo (findLastAssistantToolCalls messages) messages [] []
  r.1 ++ (if !r.2.isEmpty then [CMessage.userToolResults r.2] else [])

/-- Number of batched tool-result user messages in the translated log. -/
def countToolResultBatches (messages : List CMessage) : Nat :=
  messages.countP (fun m =>
    match m with
    | .userToolResults _ => true
    | _ => false)

/-- Number of assistant tool-calling turns in the generic log. -/
def countAssistantToolTurns (messages : List GMessage) : Nat :=
  messages.countP (fun m =>
    match m with
    | .assistant _ (some (_ :: _)) => true
    | _ => false)

/-- A well-formed two-turn conversation: each tool result answers the
immediately preceding assistant turn's single tool call. -/
def exLog : List GMessage :=
  [.user "t",
   .assistant "" (some [⟨"tool_a", [], "id1"⟩]),
   .tool "id1" "r1" none,
   .assistant "" (some [⟨"tool_b", [], "id2"⟩]),
   .tool "id2" "r2" none]

/-! ## Theorems -/

/-- A ceiling division rewrite: `Math.ceil(a / b)` for positive `b`
agrees with Mathlib's ceiling division `a ⌈/⌉ b`. -/
theorem add_pred_div_eq_ceilDiv (a b : Nat) (hb : 0 < b) :
    (a + (b - 1)) / b = a ⌈/⌉ b := by
  rw [Nat.ceilDiv_eq_add_pred_div]
  congr 1
  omega

/-! ### Object lemmas for the pagination suggestions -/

theorem hasKey_jsDelete (o : JsObj) (k : String) :
    hasKey (jsDelete o k) k = false := by
  simp only [hasKey, jsDelete, List.any_eq_false]
  intro p hp
  have := List.of_mem_filter hp
  simpa using this

theorem jsGet_of_hasKey_false (o : JsObj) (k : String) (h : hasKey o k = false) :
    jsGet o k = .undefined := by
  simp only [hasKey, List.any_eq_false] at h
  simp only [jsGet]
  cases hfind : o.find? (fun p => p.1 == k) with
  | none => rfl
  | some p =>
    have hmem := List.mem_of_find?_eq_some hfind
    have hpred := List.find?_some hfind
    exact absurd hpred (by simpa using h p hmem)

theorem jsSet_of_hasKey_false (o : JsObj) (k : String) (v : JsVal)
    (h : hasKey o k = false) : jsSet o k v = o ++ [(k, v)] := by
  simp [jsSet, h]

theorem hasKey_append (a b : JsObj) (k : String) :
    hasKey (a ++ b) k = (hasKey a k || hasKey b k) := by
  simp [hasKey, List.any_append]

/-- C10: every page suggestion of `addPaginationWarning` first deletes
any caller-supplied `limit` and `offset`, and therefore uses
`limit = 100` and `offset = (page - 1) * 100`, with all remaining
merged arguments passed through unchanged (and in order) ahead of the
two appended keys. -/
theorem pageParamsAt_spec (toolArgs additionalParams : JsObj) (page : Nat) :
    pageParamsAt (warningBaseParams toolArgs additionalParams) page =
      warningBaseParams toolArgs additionalParams ++
        [("limit", JsVal.num 100), ("offset", JsVal.num ((page - 1) * 100))] := by
  set base := warningBaseParams toolArgs additionalParams with hbase
  have hlim : hasKey base "limit" = false := by
    rw [hbase, warningBaseParams]
    simp only [hasKey, List.any_eq_false]
    intro p hp
    have h1 := List.of_mem_filter (List.mem_of_mem_filter hp)
    have h2 := List.of_mem_filter hp
    revert h1
    simp
  have hoff : hasKey base "offset" = false := hasKey_jsDelete _ _
  have hget : jsGet base "limit" = .undefined := jsGet_of_hasKey_false _ _ hlim
  have hnum : jsNumOr (jsGet base "limit") 100 = 100 := by
    rw [hget]; rfl
  rw [pageParamsAt]
  simp only [hnum]
  rw [jsSet_of_hasKey_false _ _ _ hlim]
  rw [jsSet_of_hasKey_false]
  · rw [List.append_assoc]; rfl
  · rw [hasKey_append, hoff]
    simp [hasKey]

theorem foldl_addResult (xs : List String) (st : ResponseState) :
    (xs.foldl addResult st).result = st.result ++ xs := by
  induction xs generalizing st with
  | nil => simp
  | cons x xs ih =>
    rw [List.foldl_cons, ih]
    simp [addResult, List.append_assoc]

theorem foldl_addResult_map (xs : List RequestEntry) (st : ResponseState) :
    ((xs.foldl (fun r e => addResult r (renderRequest e)) st)).result =
      st.result ++ xs.map renderRequest := by
  induction xs generalizing st with
  | nil => simp
  | cons x xs ih =>
    rw [List.foldl_cons, ih]
    simp [addResult, List.append_assoc]

theorem foldl_strcat (l : List α) (f : α → String) (init : String) :
    l.foldl (fun msg a => msg ++ f a) init = init ++ strConcat (l.map f) := by
  induction l generalizing init with
  | nil => simp [strConcat]
  | cons x xs ih => simp [strConcat, ih, String.append_assoc]

theorem bigStr_length : bigStr.length = 88004 := by
  rw [bigStr, String.length_mk, List.length_replicate]

theorem addResult_result (st : ResponseState) (s : String) :
    (addResult st s).result = st.result ++ [s] := rfl

theorem needsPagination_of_gt (s : String) (h : TOKEN_LIMIT < (s.length + 3) / 4) :
    (checkTokenLimit s).needsPagination = true := by
  simp [checkTokenLimit, h]

theorem totalPages_of_gt (s : String) (h : TOKEN_LIMIT < (s.length + 3) / 4) :
    (checkTokenLimit s).totalPages =
      some (((s.length + 3) / 4 + (TOKEN_LIMIT - 1)) / TOKEN_LIMIT) := by
  simp [checkTokenLimit, h]

theorem needsPagination_of_le (s : String) (h : (s.length + 3) / 4 ≤ TOKEN_LIMIT) :
    (checkTokenLimit s).needsPagination = false := by
  simp [checkTokenLimit, Nat.not_lt.mpr h]

theorem jsSlice_eq_drop_take (xs : List α) (o l : Nat) :
    jsSlice xs o (o + l) = (xs.drop o).take l := by
  rw [jsSlice, List.drop_take]
  congr 1
  omega

/-- C5: for a list tool invoked with neither `limit` nor `offset`, when
the rendered full list is over budget the listing is suppressed and the
response is exactly one pagination-advice message; that message carries
exactly `min(totalPages, 5)` page entries and a remainder line exactly
when `totalPages > 5`. -/
theorem listPagination_advice
    (msgs : List String) (entries : List RequestEntry) (st st' : ResponseState)
    (h1 : (checkTokenLimit (jsJoin "\n" msgs)).needsPagination = true)
    (h2 : (checkTokenLimit (jsJoin "\n" (entries.map renderRequest))).needsPagination = true) :
    (consoleHandle msgs ⟨none, none⟩ st =
      addResult st (paginationMessage st.toolArgs []
        ((checkTokenLimit (jsJoin "\n" msgs)).totalPages.getD 0))) ∧
    (requestsHandle entries ⟨none, none⟩ st' =
      addResult st' (paginationMessage st'.toolArgs []
        ((checkTokenLimit (jsJoin "\n" (entries.map renderRequest))).totalPages.getD 0))) ∧
    (∀ (args : JsObj) (tp : Nat),
      paginationMessage args [] tp =
        "⚠️ 返回内容过大，建议分" ++ Nat.repr tp ++ "页获取：\n\n" ++
        strConcat ((List.range' 1 (min tp 5)).map
          (fun p => pageLine tp p (pageParamsAt (warningBaseParams args []) p))) ++
        (if 5 < tp then "... (还有" ++ Nat.repr (tp - 5) ++ "页)\n" else "") ++
        "\n或考虑使用更小的limit值来减少每页数据量。") ∧
    (∀ (args : JsObj) (tp : Nat),
      ((List.range' 1 (min tp 5)).map
        (fun p => pageLine tp p (pageParamsAt (warningBaseParams args []) p))).length =
        min tp 5) := by
  refine ⟨?_, ?_, ?_, ?_⟩
  · simp [consoleHandle, jsTruthyOpt, h1, addPaginationWarning]
  · simp [requestsHandle, jsTruthyOpt, h2, addPaginationWarning]
  · intro args tp
    simp only [paginationMessage, warningBaseParams]
    rw [foldl_strcat]
    by_cases h5 : tp > 5 <;> simp [h5, String.append_assoc]
  · intro args tp
    simp

/-- C5 witness: a single 88004-character console message (and a network
request whose URL is that string) exceeds the budget with no
`limit`/`offset` supplied, and each handler's output is exactly the
pagination-advice message. -/
theorem listPagination_advice_witness :
    (checkTokenLimit (jsJoin "\n" [bigStr])).needsPagination = true ∧
    (checkTokenLimit (jsJoin "\n" ([reqW].map renderRequest))).needsPagination = true ∧
    consoleHandle [bigStr] ⟨none, none⟩ stW =
      addResult stW (paginationMessage stW.toolArgs []
        ((checkTokenLimit (jsJoin "\n" [bigStr])).totalPages.getD 0)) ∧
    requestsHandle [reqW] ⟨none, none⟩ stW =
      addResult stW (paginationMessage stW.toolArgs []
        ((checkTokenLimit (jsJoin "\n" ([reqW].map renderRequest))).totalPages.getD 0)) := by
  have hj1 : jsJoin "\n" [bigStr] = bigStr := rfl
  have h1 : (checkTokenLimit (jsJoin "\n" [bigStr])).needsPagination = true := by
    rw [hj1]
    apply needsPagination_of_gt
    rw [bigStr_length]
    norm_num [TOKEN_LIMIT]
  have hrlen : (jsJoin "\n" ([reqW].map renderRequest)).length = 88010 := by
    show ((("[" ++ jsToUpper "get") ++ "] ") ++ bigStr).length = 88010
    rw [String.length_append, bigStr_length]
    decide
  have h2 : (checkTokenLimit (jsJoin "\n" ([reqW].map renderRequest))).needsPagination = true := by
    apply needsPagination_of_gt
    rw [hrlen]
    norm_num [TOKEN_LIMIT]
  exact ⟨h1, h2, (listPagination_advice [bigStr] [reqW] stW stW h1 h2).1,
    (listPagination_advice [bigStr] [reqW] stW stW h1 h2).2.1⟩

/-- C6 counterexample: the caller-supplied `offset: 0` is falsy in JS,
so the handler takes the no-parameters path and never reports the
returned range and total count that the claim requires for every call
supplying `limit` and/or `offset`. -/
theorem consoleHandle_zeroOffset_counterexample :
    (consoleHandle ["a", "b", "c"] ⟨none, some 0⟩
      (mkResponse ctxW "browser_console_messages" [])).result = ["a", "b", "c"] ∧
    "Console messages 1-3 of 3:" ∉
      (consoleHandle ["a", "b", "c"] ⟨none, some 0⟩
        (mkResponse ctxW "browser_console_messages" [])).result := by
  constructor
  · rfl
  · decide

/-- C6 (amended): for a list tool where the caller supplies a nonzero
`limit` and/or a nonzero `offset` (zero is falsy in JS and treated as
absent), the tool returns exactly the slice `[offset, offset+limit)`,
reports the returned range and the total count, appends a single
next-page hint iff `offset + limit < n`, and yields a dedicated
"nothing found in range" message when the slice is empty. -/
theorem listSlice_spec (msgs : List String) (entries : List RequestEntry)
    (params : ListParams) (st st' : ResponseState)
    (h : jsTruthyOpt params.limit = true ∨ jsTruthyOpt params.offset = true) :
    (consoleHandle msgs params st).result =
      st.result ++ consoleSliceSpec msgs (jsOrNat params.limit 100) (jsOrNat params.offset 0) ∧
    (requestsHandle entries params st').result =
      st'.result ++ requestsSliceSpec entries (jsOrNat params.limit 100) (jsOrNat params.offset 0) := by
  have hcond : (!jsTruthyOpt params.limit && !jsTruthyOpt params.offset) = false := by
    rcases h with h | h <;> simp [h]
  have hcond' : (jsTruthyOpt params.limit || jsTruthyOpt params.offset) = true := by
    rcases h with h | h <;> simp [h]
  constructor
  · rw [consoleHandle, hcond]
    simp only [Bool.false_eq_true, if_false]
    rw [consolePaginate]
    simp only [jsSlice_eq_drop_take, hcond', if_true]
    by_cases hempty : (msgs.drop (jsOrNat params.offset 0)).take (jsOrNat params.limit 100) = []
    · simp [hempty, consoleSliceSpec, addResult_result]
    · rw [consoleSliceSpec]
      simp only [hempty, List.isEmpty_iff, if_neg hempty, if_false]
      by_cases hm : jsOrNat params.offset 0 + jsOrNat params.limit 100 < msgs.length
      · simp [hm, foldl_addResult, addResult_result, List.append_assoc]
      · simp [hm, foldl_addResult, addResult_result, List.append_assoc]
  · rw [requestsHandle, hcond]
    simp only [Bool.false_eq_true, if_false]
    rw [requestsPaginate]
    simp only [jsSlice_eq_drop_take, hcond', if_true]
    by_cases hempty : (entries.drop (jsOrNat params.offset 0)).take (jsOrNat params.limit 100) = []
    · simp [hempty, requestsSliceSpec, addResult_result]
    · rw [requestsSliceSpec]
      simp only [hempty, List.isEmpty_iff, if_neg hempty, if_false]
      by_cases hm : jsOrNat params.offset 0 + jsOrNat params.limit 100 < entries.length
      · simp [hm, foldl_addResult_map, addResult_result, List.append_assoc]
      · simp [hm, foldl_addResult_map, addResult_result, List.append_assoc]

set_option maxRecDepth 8000 in
/-- C6 witness: `limit 50, offset 200` against a 250-item console list
returns exactly items 201-250 with the correct range/total report and
no next-page hint. -/
theorem listSlice_spec_witness :
    (jsTruthyOpt (some 50) = true ∨ jsTruthyOpt (some 200) = true) ∧
    (consoleHandle msgs250 ⟨some 50, some 200⟩ stW).result =
      stW.result ++ consoleSliceSpec msgs250 50 200 ∧
    consoleSliceSpec msgs250 50 200 =
      "Console messages 201-250 of 250:" :: (msgs250.drop 200).take 50 ∧
    ((msgs250.drop 200).take 50).length = 50 := by
  have h : jsTruthyOpt (some 50) = true ∨ jsTruthyOpt (some 200) = true := by
    left; rfl
  refine ⟨h, ?_, by decide, by decide⟩
  exact (listSlice_spec msgs250 [] ⟨some 50, some 200⟩ stW stW h).1

/-- C2: for every input string, `checkTokenLimit` reports
`needsPagination` exactly when `⌈length/4⌉ > 22000`, and in that case
returns `totalPages = ⌈estimatedTokens / 22000⌉`. -/
theorem checkTokenLimit_spec (text : String) :
    ((checkTokenLimit text).needsPagination = true ↔
      22000 < text.length ⌈/⌉ 4) ∧
    (22000 < text.length ⌈/⌉ 4 →
      (checkTokenLimit text).totalPages = some ((text.length ⌈/⌉ 4) ⌈/⌉ 22000)) := by
  have h4 : (text.length + 3) / 4 = text.length ⌈/⌉ 4 := by
    have := add_pred_div_eq_ceilDiv text.length 4 (by norm_num)
    simpa using this
  have h22 : ∀ e : Nat, (e + (TOKEN_LIMIT - 1)) / TOKEN_LIMIT = e ⌈/⌉ 22000 := by
    intro e
    have := add_pred_div_eq_ceilDiv e 22000 (by norm_num)
    simpa [TOKEN_LIMIT] using this
  constructor
  · by_cases h : (text.length + 3) / 4 > TOKEN_LIMIT
    · simp only [checkTokenLimit, if_pos h]
      simpa [TOKEN_LIMIT, h4] using h
    · simp only [checkTokenLimit, if_neg h]
      simp only [TOKEN_LIMIT, not_lt] at h
      simp [h4] at h ⊢
      omega
  · intro hgt
    have h : (text.length + 3) / 4 > TOKEN_LIMIT := by
      simpa [TOKEN_LIMIT, h4] using hgt
    simp only [checkTokenLimit, if_pos h]
    rw [h4, h22]

/-- C2 witness: a concrete 88004-character string estimates to 22001
tokens, is over limit, and paginates into 2 pages. -/
theorem checkTokenLimit_spec_witness :
    22000 < bigStr.length ⌈/⌉ 4 ∧
    (checkTokenLimit bigStr).needsPagination = true ∧
    (checkTokenLimit bigStr).totalPages = some 2 := by
  have hlen : bigStr.length ⌈/⌉ 4 = 22001 := by
    rw [bigStr_length, Nat.ceilDiv_eq_add_pred_div]
  have hgt : 22000 < bigStr.length ⌈/⌉ 4 := by rw [hlen]; norm_num
  refine ⟨hgt, ?_, ?_⟩
  · exact (checkTokenLimit_spec bigStr).1.mpr hgt
  · have := (checkTokenLimit_spec bigStr).2 hgt
    rw [this, hlen]
    norm_num [Nat.ceilDiv_eq_add_pred_div]

theorem jsStrSub_length (s : String) (e : Nat) :
    (jsStrSub s 0 e).length = min e s.length := by
  simp [jsStrSub, String.length_mk]

theorem assembled_stBig_length : (assembledResponse stBig).length = 88016 := by
  show ("### Result" ++ "\n" ++ (bigStr ++ "\n" ++ "")).length = 88016
  simp only [String.length_append, bigStr_length]
  decide

theorem assembled_stBigImg_length : (assembledResponse stBigImg).length = 88016 := by
  show ("### Result" ++ "\n" ++ (bigStr ++ "\n" ++ "")).length = 88016
  simp only [String.length_append, bigStr_length]
  decide

/-- C3: whenever the assembled response text is over budget,
`serialize` returns a single text entry of the truncated text plus the
fixed warning, whose length is at most `22000 * 4 * 0.9 = 79200`
characters plus the warning's length, and the error flag passes
through truncation unchanged. -/
theorem serialize_truncation_spec (st : ResponseState)
    (h : (checkTokenLimit (assembledResponse st)).needsPagination = true) :
    (serialize st).content =
      [ContentItem.text (jsStrSub (assembledResponse st) 0 emergencyMaxLength ++
        responseTruncationWarning)] ∧
    (jsStrSub (assembledResponse st) 0 emergencyMaxLength ++
      responseTruncationWarning).length ≤ 79200 + responseTruncationWarning.length ∧
    (serialize st).isError = st.isError := by
  refine ⟨?_, ?_, ?_⟩
  · simp [serialize, h]
  · rw [String.length_append, jsStrSub_length]
    have h90 : emergencyMaxLength = 79200 := by decide
    rw [h90]
    exact Nat.add_le_add_right (Nat.min_le_left _ _) _
  · simp [serialize, h]

/-- C3 witness: a response whose result section is an 88004-character
string triggers emergency truncation; the serialized entry is the
truncated text plus warning and `isError` stays unset. -/
theorem serialize_truncation_spec_witness :
    (checkTokenLimit (assembledResponse stBig)).needsPagination = true ∧
    (serialize stBig).content =
      [ContentItem.text (jsStrSub (assembledResponse stBig) 0 emergencyMaxLength ++
        responseTruncationWarning)] ∧
    (serialize stBig).isError = none := by
  have h : (checkTokenLimit (assembledResponse stBig)).needsPagination = true := by
    apply needsPagination_of_gt
    rw [assembled_stBig_length]
    norm_num [TOKEN_LIMIT]
  exact ⟨h, (serialize_truncation_spec stBig h).1, (serialize_truncation_spec stBig h).2.2⟩

/-- C7 counterexample: a response carrying one image whose text is over
budget serializes — through the emergency-truncation path — to a single
text entry with no image entries at all, although image responses are
not configured off. -/
theorem serialize_truncation_drops_images :
    stBigImg.images.length = 1 ∧
    (stBigImg.context.imageResponses == "omit") = false ∧
    (serialize stBigImg).content.length = 1 ∧
    (serialize stBigImg).content.countP isImageItem = 0 := by
  have h : (checkTokenLimit (assembledResponse stBigImg)).needsPagination = true := by
    apply needsPagination_of_gt
    rw [assembled_stBigImg_length]
    norm_num [TOKEN_LIMIT]
  refine ⟨rfl, rfl, ?_, ?_⟩
  · simp [serialize, h]
  · simp [serialize, h, isImageItem]

/-- C7 (amended): when the final-serialization budget check does not
trigger, `serialize` returns the image attachments as separate image
entries after the text entry, in insertion order, omitted entirely iff
image responses are configured off; the emergency-truncation path
instead returns only the truncated text entry, dropping images. -/
theorem serialize_images_spec (st : ResponseState)
    (h : (checkTokenLimit (assembledResponse st)).needsPagination = false) :
    (serialize st).content =
      ContentItem.text (assembledResponse st) ::
        (if !(st.context.imageResponses == "omit") then
          st.images.map (fun image => ContentItem.image image.data image.contentType)
        else []) ∧
    (serialize st).isError = st.isError := by
  constructor <;> simp [serialize, h]

set_option maxRecDepth 8000 in
/-- C7 witness: a small response with two images serializes to the text
entry followed by both images in insertion order. -/
theorem serialize_images_spec_witness :
    (checkTokenLimit (assembledResponse stImgs)).needsPagination = false ∧
    (serialize stImgs).content =
      [ContentItem.text (assembledResponse stImgs),
       ContentItem.image "AAAA" "image/png",
       ContentItem.image "BBBB" "image/jpeg"] := by
  have h : (checkTokenLimit (assembledResponse stImgs)).needsPagination = false := by
    decide
  exact ⟨h, (serialize_images_spec stImgs h).1⟩

/-- C4: when a freshly captured snapshot's accessibility-tree text is
over budget, `finish` stores a snapshot whose tree portion is the
at-most-70400-character (`22000 * 4 * 0.8`) prefix of the original with
the truncation-warning block appended, and all other snapshot fields
unchanged. -/
theorem finish_truncates_oversized_snapshot (st : ResponseState) (temp : TabSnapshot)
    (hinc : st.includeSnapshot = true)
    (h : (checkTokenLimit temp.ariaSnapshot).needsPagination = true) :
    (finish st true (some temp)).tabSnapshot = some (createTruncatedSnapshot temp) ∧
    (createTruncatedSnapshot temp).ariaSnapshot =
      jsStrSub temp.ariaSnapshot 0 snapshotTruncationPoint ++
        snapshotTruncationWarning ((temp.ariaSnapshot.length + 3) / 4) ∧
    (jsStrSub temp.ariaSnapshot 0 snapshotTruncationPoint).length ≤ 70400 ∧
    (jsStrSub temp.ariaSnapshot 0 snapshotTruncationPoint).data <+: temp.ariaSnapshot.data ∧
    (createTruncatedSnapshot temp).url = temp.url ∧
    (createTruncatedSnapshot temp).title = temp.title ∧
    (createTruncatedSnapshot temp).consoleMessages = temp.consoleMessages ∧
    (createTruncatedSnapshot temp).downloads = temp.downloads ∧
    (createTruncatedSnapshot temp).modalStates = temp.modalStates := by
  have hne : ¬ (temp.ariaSnapshot = "") := by
    intro he
    rw [he] at h
    rw [needsPagination_of_le "" (by norm_num [TOKEN_LIMIT])] at h
    exact absurd h (by simp)
  refine ⟨?_, rfl, ?_, ?_, rfl, rfl, rfl, rfl, rfl⟩
  · simp [finish, hinc, hne, h]
  · rw [jsStrSub_length]
    have h80 : snapshotTruncationPoint = 70400 := by decide
    rw [h80]
    exact Nat.min_le_left _ _
  · simp only [jsStrSub]
    exact List.take_prefix _ _

/-- C4 witness: an 88004-character accessibility tree is over budget
and `finish` stores the truncated snapshot with the warning block. -/
theorem finish_truncates_oversized_snapshot_witness :
    stSnap.includeSnapshot = true ∧
    (checkTokenLimit snapBig.ariaSnapshot).needsPagination = true ∧
    (finish stSnap true (some snapBig)).tabSnapshot =
      some (createTruncatedSnapshot snapBig) ∧
    (jsStrSub snapBig.ariaSnapshot 0 snapshotTruncationPoint).length ≤ 70400 := by
  have haria : snapBig.ariaSnapshot = bigStr := rfl
  have h : (checkTokenLimit snapBig.ariaSnapshot).needsPagination = true := by
    apply needsPagination_of_gt
    rw [haria, bigStr_length]
    norm_num [TOKEN_LIMIT]
  exact ⟨rfl, h,
    (finish_truncates_oversized_snapshot stSnap snapBig rfl h).1,
    (finish_truncates_oversized_snapshot stSnap snapBig rfl h).2.2.1⟩

/-- C8: the two `browser_evaluate` handlers are not behaviorally
equivalent: with `maxLength 5`, no summary, and the 8-character result
`"abcdefgh"` (under the token budget), the budget-first variant
truncates while the maxLength-first variant returns the full result. -/
theorem evaluate_variants_differ :
    evaluateBudgetFirst ⟨some 5, false⟩ "string" "abcdefgh" =
      [evalTruncatedMsg "abcdefgh" 5] ∧
    evaluateMaxLengthFirst ⟨some 5, false⟩ "string" "abcdefgh" = ["abcdefgh"] ∧
    evaluateBudgetFirst ⟨some 5, false⟩ "string" "abcdefgh" ≠
      evaluateMaxLengthFirst ⟨some 5, false⟩ "string" "abcdefgh" := by
  refine ⟨rfl, rfl, ?_⟩
  decide

/-- C1: evaluating the `makeApiCall` translation on a well-formed
two-turn log shows the bug: because the flush test is keyed on the
tool-call IDs of the log's globally last assistant message, the first
turn's buffered result `id1` is discarded when the second assistant
message resets the buffer — the output contains one tool-result batch
for two assistant tool-calling turns, and no `tool_result` for `id1`
at all. -/
theorem makeApiCall_drops_earlier_results :
    convertMessages exLog =
      [CMessage.userText "t",
       CMessage.assistantMsg [CBlock.toolUse "id1" "tool_a" []],
       CMessage.assistantMsg [CBlock.toolUse "id2" "tool_b" []],
       CMessage.userToolResults [⟨"id2", "r2", none⟩]] ∧
    countAssistantToolTurns exLog = 2 ∧
    countToolResultBatches (convertMessages exLog) = 1 :=
  ⟨rfl, rfl, rfl⟩

/-- C9: a `done` tool call with `\x7bresult: "X"\x7d` yields completion
value `"X"`; any other tool-call name yields no completion signal; and
`createConversation` appends the synthetic `done` tool exactly when the
conversation is not one-shot. -/
theorem done_detection_and_registration :
    (∀ (x id : String),
      checkDoneToolCall ⟨"done", [("result", JsVal.str x)], id⟩ =
        some (JsVal.str x)) ∧
    (∀ toolCall : LLMToolCall, toolCall.name ≠ "done" →
      checkDoneToolCall toolCall = none) ∧
    (∀ (task : String) (tools : List MCPTool),
      (createConversation task tools false).tools =
        tools.map toLLMTool ++ [doneTool]) ∧
    (∀ (task : String) (tools : List MCPTool),
      (createConversation task tools true).tools = tools.map toLLMTool) := by
  refine ⟨?_, ?_, ?_, ?_⟩
  · intro x id
    rfl
  · intro toolCall h
    simp [checkDoneToolCall, h]
  · intro task tools
    rfl
  · intro task tools
    rfl

/-- C9 witness: concrete `done` and non-`done` calls, and concrete
one-shot and multi-turn tool registrations. -/
theorem done_detection_and_registration_witness :
    checkDoneToolCall ⟨"done", [("result", JsVal.str "X")], "id1"⟩ =
      some (JsVal.str "X") ∧
    ("browser_click" ≠ "done") ∧
    checkDoneToolCall ⟨"browser_click", [], "id2"⟩ = none ∧
    (createConversation "task" [] false).tools = [doneTool] ∧
    (createConversation "task" [] true).tools = [] := by
  refine ⟨done_detection_and_registration.1 "X" "id1", by decide, ?_, ?_, ?_⟩
  · exact done_detection_and_registration.2.1 ⟨"browser_click", [], "id2"⟩ (by decide)
  · exact done_detection_and_registration.2.2.1 "task" []
  · exact done_detection_and_registration.2.2.2 "task" []

end PWMCP

